import Mathlib

/-!
Verification of the sensor-fusion activation controller in `src/PR4/main.py`
(`WasteClassificationSystem`).

Shallow embedding conventions:
* Python floats (times in seconds, distances in cm, confidences in percent)
  are modelled as `ℚ`; all operations used by the code on them (comparison,
  addition, subtraction, absolute value) are exact at these magnitudes.
* `time.time()` is passed in explicitly as a `now : ℚ` argument; the several
  `time.time()` calls inside one loop iteration are microseconds apart and are
  modelled as one `now` per tick.
* Calls into hardware / the YOLO model are modelled by an explicit environment
  value (`CaptureEnv`) describing what the external world does during one
  `classify_waste` call; pixel/display writes carry no controller state and
  are not modelled.
* The ultrasonic busy-wait loops (`measure_distance`) are modelled over
  discrete time `Nat` (1 unit = 1 ms = one read-loop granularity), with the
  echo line given as a function from read time to level.
-/

namespace AISVE

/-! ### Constants (main.py lines 26-46) -/

def NUM_PIXELS : Nat := 12
def MOTION_THRESHOLD : ℚ := 50
def LIGHT_ON_DURATION : ℚ := 10
def CAMERA_TIMEOUT : ℚ := 15
def CLASSIFICATION_DELAY : ℚ := 1

/-- `LABEL_MAPPING` (main.py lines 40-46): the static dict from raw YOLO
labels to display categories, as a lookup function (dict membership test and
indexing become a single partial lookup). -/
def LABEL_MAPPING (label : String) : Option String :=
  if label = ("plastic") then some ("PLASTIC")
  else if label = ("paper") then some ("PAPER")
  else if label = ("cardboard") then some ("CARDBOARD")
  else if label = ("organic") then some ("ORGANIC")
  else if label = ("green-glass") then some ("GLASS")
  else none

/-! ### Detection selection (main.py lines 244-277) -/

/-- One YOLO detection box, after the code's conversions: `conf` is
`float(box.conf[0]) * 100` (a percentage) and `label` is
`result.names[int(box.cls[0])]`. -/
structure Box where
  conf : ℚ
  label : String
deriving DecidableEq

/-- The body of the `for box in result.boxes` loop (lines 253-266): the
accumulator is `(best_category, highest_conf)`, initially `("", 0)`.
`if confidence > 60 and confidence > highest_conf:` then, when the label is
in `LABEL_MAPPING`, both components are updated. -/
def selectStep (acc : String × ℚ) (b : Box) : String × ℚ :=
  if b.conf > 60 ∧ b.conf > acc.2 then
    match LABEL_MAPPING b.label with
    | some cat => (cat, b.conf)
    | none => acc
  else acc

/-- The whole detection loop (lines 244-266) over the flattened list of
boxes, starting from `best_category = ""`, `highest_conf = 0`. -/
def selectBest (boxes : List Box) : String × ℚ :=
  boxes.foldl selectStep (("", 0))

/-- Lines 268-277: `if best_category:` keep it, else report
`("UNIDENTIFIED", 0)`.  (Python string truthiness = non-emptiness.) -/
def classifyOutcome (boxes : List Box) : String × ℚ :=
  if (selectBest boxes).1 = ("") then (("UNIDENTIFIED"), 0) else selectBest boxes

/-- A detection that the selection policy can accept: confidence strictly
above 60 and a label present in `LABEL_MAPPING`. -/
def qualifiesB (b : Box) : Bool :=
  decide (b.conf > 60) && (LABEL_MAPPING b.label).isSome

/-! ### Controller state (main.py lines 75-84) -/

/-- The mutable state of `WasteClassificationSystem` that the monitoring loop
touches.  `camOk` models `self.picam2 is not None and self.model is not None`;
after `initialize_camera_and_model` the two are both set or (on any init
exception, lines 210-213) both `None`, so one flag is faithful. -/
structure SysState where
  lights_on_until : ℚ
  camera_active_until : ℚ
  previous_distance : Option ℚ
  last_classification : String
  classification_confidence : ℚ
  last_classification_time : ℚ
  camera_window_open : Bool
  camOk : Bool
deriving DecidableEq

/-- The state right after `__init__` (lines 75-84): all timers 0,
`previous_distance = None`, `last_classification = "WAITING..."`. -/
def initState (camOk : Bool) : SysState :=
  { lights_on_until := 0
    camera_active_until := 0
    previous_distance := none
    last_classification := ("WAITING...")
    classification_confidence := 0
    last_classification_time := 0
    camera_window_open := false
    camOk := camOk }

/-! ### Lights (main.py lines 166-187) -/

/-- `turn_on_lights` (lines 166-175): sets every pixel to `LED_COLOR`
(hardware side effect, not controller state) and arms the light window. -/
def turn_on_lights (now : ℚ) (s : SysState) : SysState :=
  { s with lights_on_until := now + LIGHT_ON_DURATION }

/-- `should_lights_be_on` (lines 185-187). -/
def should_lights_be_on (now : ℚ) (s : SysState) : Bool :=
  decide (now < s.lights_on_until)

/-! ### Motion detection (main.py lines 155-164) -/

/-- `detect_motion` (lines 155-164), with `self.previous_distance` made
explicit: returns the motion flag and the new `previous_distance`. -/
def detect_motion (previous : Option ℚ) (current : ℚ) : Bool × Option ℚ :=
  match previous with
  | none => (false, some current)
  | some p => (decide (|current - p| > 5), some current)

/-- Feeding a sequence of distance samples through `detect_motion`,
threading `previous_distance`; returns the list of motion flags. -/
def runMotion (previous : Option ℚ) : List ℚ → List Bool
  | [] => []
  | d :: ds => (detect_motion previous d).1 :: runMotion (detect_motion previous d).2 ds

/-! ### Ultrasonic measurement (main.py lines 118-145) -/

/-- Timeout of the echo busy-wait loops, in ms (`timeout = start_time + 0.1`,
line 126), with 1 unit = 1 ms = one read-loop granularity. -/
def ECHO_TIMEOUT : Nat := 100

/-- One busy-wait loop of `measure_distance` (lines 128-131 with
`waitLevel = false` i.e. `while read == 0`, lines 134-137 with
`waitLevel = true` i.e. `while read == 1`): while the echo line reads
`waitLevel`, record the current clock into the loop variable (`start_time`
resp. `end_time`) and bail out with `None` once the clock passes the shared
`timeout` deadline.  Returns `(some recorded, t)` with the exit clock `t` on
a level change, `(none, t)` on timeout.  Each iteration advances the clock by
one granularity unit. -/
def echoWait (echo : Nat → Bool) (waitLevel : Bool) (timeout : Nat) (t last : Nat) :
    Option Nat × Nat :=
  if echo t = waitLevel then
    if t > timeout then (none, t)
    else echoWait echo waitLevel timeout (t + 1) t
  else (some last, t)
termination_by timeout + 1 - t
decreasing_by simp at *; omega

/-- `measure_distance` (lines 118-145) over an echo-line behaviour
`echo : Nat → Bool` with the call starting at clock `t0`: trigger pulse
(pure hardware side effect), then the two wait loops against the single
deadline `t0 + ECHO_TIMEOUT` computed at call start; on success the distance
is `(pulse_end - pulse_start) * 34300 / 2`.  The second component is the
clock at which the call returns. -/
def measure_distance (echo : Nat → Bool) (t0 : Nat) : Option ℚ × Nat :=
  match echoWait echo false (t0 + ECHO_TIMEOUT) t0 t0 with
  | (none, tr) => (none, tr)
  | (some pulseStart, t1) =>
    match echoWait echo true (t0 + ECHO_TIMEOUT) t1 t1 with
    | (none, tr) => (none, tr)
    | (some pulseEnd, t2) =>
      (some ((((pulseEnd : ℚ) - (pulseStart : ℚ)) * 34300) / 2), t2)

/-! ### Classification (main.py lines 215-301) -/

/-- What the external world (camera, YOLO model, OpenCV rendering) does
during one `classify_waste` body, at the points where the code can branch:

* `captureRaises` — `picam2.capture_array()` raises (caught at line 298);
* `emptyFrame` — the frame is `None` or has size 0 (early return, line 231);
* `inferRaises` — capture succeeds, the window is opened, `self.model(frame)`
  raises;
* `renderRaises boxes` — capture and inference succeed yielding `boxes`, but
  a later annotation/`imshow` step raises (so line 296 is never reached and
  the handler at lines 298-301 overwrites the classification fields);
* `ok boxes` — the whole body completes with detections `boxes`. -/
inductive CaptureEnv where
  | captureRaises
  | emptyFrame
  | inferRaises
  | renderRaises (boxes : List Box)
  | ok (boxes : List Box)
deriving DecidableEq

/-- Result of one `classify_waste` call: the new state, plus whether a
camera capture call was issued and whether a model inference call was
completed. -/
structure ClassifyOutput where
  state : SysState
  captured : Bool
  inferred : Bool
deriving DecidableEq

/-- `classify_waste` (lines 215-301).  Guards in code order: the
`picam2 is None or model is None` bail-out (line 217), then the cooldown
check against `last_classification_time` (lines 221-223).  The
`camera_lock` only matters for a concurrent preview consumer and is not part
of the single-threaded state.  Note that `last_classification_time` is
assigned (line 296) only when the whole body completes without an exception
and with a non-empty frame. -/
def classify_waste (env : CaptureEnv) (now : ℚ) (s : SysState) : ClassifyOutput :=
  if s.camOk = false then ⟨s, false, false⟩
  else if now - s.last_classification_time < CLASSIFICATION_DELAY then ⟨s, false, false⟩
  else
    match env with
    | .captureRaises =>
        ⟨{ s with last_classification := ("CAMERA ERROR"),
                  classification_confidence := 0 }, true, false⟩
    | .emptyFrame => ⟨s, true, false⟩
    | .inferRaises =>
        ⟨{ s with camera_window_open := true,
                  last_classification := ("CAMERA ERROR"),
                  classification_confidence := 0 }, true, false⟩
    | .renderRaises _ =>
        ⟨{ s with camera_window_open := true,
                  last_classification := ("CAMERA ERROR"),
                  classification_confidence := 0 }, true, true⟩
    | .ok boxes =>
        ⟨{ s with camera_window_open := true,
                  last_classification := (classifyOutcome boxes).1,
                  classification_confidence := (classifyOutcome boxes).2,
                  last_classification_time := now }, true, true⟩

/-! ### One iteration of `sensor_monitoring_loop` (main.py lines 344-388) -/

/-- The per-tick inputs read from the outside world: the clock, the distance
measurement (`None` on sensor timeout), the LDR darkness flag, and the
capture environment used if `classify_waste` runs this tick. -/
structure TickInput where
  now : ℚ
  distance : Option ℚ
  dark : Bool
  env : CaptureEnv

/-- `object_detected = distance <= MOTION_THRESHOLD` (line 350). -/
def object_detected (d : ℚ) : Bool :=
  decide (d ≤ MOTION_THRESHOLD)

/-- Lines 349-361 of the loop body, parameterized by the light duration `D`
(the module constant is `LIGHT_ON_DURATION`; §8's scenario instantiates 5):
if a reading exists, arm the camera window on detection, and call
`turn_on_lights` (arming the light window) when additionally dark. -/
def armPhase (D : ℚ) (inp : TickInput) (s : SysState) : SysState :=
  match inp.distance with
  | none => s
  | some d =>
    let s1 := if object_detected d
              then { s with camera_active_until := inp.now + CAMERA_TIMEOUT } else s
    if object_detected d && inp.dark
    then { s1 with lights_on_until := inp.now + D } else s1

/-- Lines 368-372: reset the classification to `"WAITING..."` when it is not
already that; the Bool records whether the guarded block executed. -/
def resetClassification (s : SysState) : SysState × Bool :=
  if s.last_classification ≠ ("WAITING...") then
    ({ s with last_classification := ("WAITING..."), classification_confidence := 0 }, true)
  else (s, false)

/-- Lines 374-377: close the OpenCV window when it is open; the Bool records
whether the guarded block executed. -/
def closeCameraWindow (s : SysState) : SysState × Bool :=
  if s.camera_window_open then ({ s with camera_window_open := false }, true)
  else (s, false)

/-- Result of one loop iteration: the new state plus which one-shot actions
fired. -/
structure TickOutput where
  state : SysState
  resetFired : Bool
  windowCloseFired : Bool
  captured : Bool
  inferred : Bool
deriving DecidableEq

/-- Lines 363-377: `if current_time < camera_active_until and picam2 is not
None: classify_waste()` / `elif current_time >= camera_active_until:` reset.
Over `ℚ`, `¬(now < until)` is exactly `now ≥ until`, so the `elif` is the
plain else-branch of the window check, with the `picam2` test nested inside
the active branch. -/
def classifyPhase (inp : TickInput) (s : SysState) : TickOutput :=
  if inp.now < s.camera_active_until then
    if s.camOk then
      ⟨(classify_waste inp.env inp.now s).state, false, false,
       (classify_waste inp.env inp.now s).captured,
       (classify_waste inp.env inp.now s).inferred⟩
    else ⟨s, false, false, false, false⟩
  else
    ⟨(closeCameraWindow (resetClassification s).1).1,
     (resetClassification s).2,
     (closeCameraWindow (resetClassification s).1).2, false, false⟩

/-- Lines 380-383: if the light window has lapsed but `lights_on_until` is
still armed, turn the LEDs off and zero the expiry. -/
def lightsPhase (inp : TickInput) (s : SysState) : SysState :=
  if ¬ (inp.now < s.lights_on_until) ∧ s.lights_on_until > 0 then
    { s with lights_on_until := 0 }
  else s

/-- One full iteration of `sensor_monitoring_loop` (lines 344-388),
parameterized by the light duration `D`.  `update_display` reads but never
writes controller state and is omitted. -/
def tickD (D : ℚ) (inp : TickInput) (s : SysState) : TickOutput :=
  { classifyPhase inp (armPhase D inp s) with
    state := lightsPhase inp (classifyPhase inp (armPhase D inp s)).state }

/-- One loop iteration with the module constant `LIGHT_ON_DURATION`. -/
def tick : TickInput → SysState → TickOutput :=
  tickD LIGHT_ON_DURATION

/-- Running a sequence of loop iterations, duration-parameterized. -/
def runTicksD (D : ℚ) : List TickInput → SysState → SysState
  | [], s => s
  | i :: rest, s => runTicksD D rest ((tickD D i s).state)

/-- Running a sequence of iterations with the module constant. -/
def runTicks : List TickInput → SysState → SysState :=
  runTicksD LIGHT_ON_DURATION

/-! ### Lemmas about the detection selection fold -/

/-- A mapped display category is a nonempty string (so it survives the
`if best_category:` truthiness test at line 269). -/
lemma LABEL_MAPPING_ne_empty (l c : String) (h : LABEL_MAPPING l = some c) :
    ¬ c = ("") := by
  unfold LABEL_MAPPING at h
  split_ifs at h <;> simp_all <;> subst h <;> decide

/-- A box that does not qualify leaves the accumulator unchanged. -/
lemma selectStep_not_qual (acc : String × ℚ) (b : Box) (h : ¬ qualifiesB b = true) :
    selectStep acc b = acc := by
  unfold qualifiesB at h
  unfold selectStep
  split_ifs with hc
  · rcases hm : LABEL_MAPPING b.label with _ | cat
    · simp
    · exact absurd (by simp [hc.1, hm]) h
  · rfl

/-- Each step either keeps the accumulator or installs a qualifying box with
strictly larger confidence. -/
lemma selectStep_cases (acc : String × ℚ) (b : Box) :
    selectStep acc b = acc ∨
      (qualifiesB b = true ∧ LABEL_MAPPING b.label = some (selectStep acc b).1 ∧
        (selectStep acc b).2 = b.conf ∧ acc.2 < (selectStep acc b).2) := by
  unfold selectStep
  split_ifs with hc
  · rcases hm : LABEL_MAPPING b.label with _ | cat
    · exact Or.inl rfl
    · refine Or.inr ⟨by simp [qualifiesB, hc.1, hm], by simp [hm], rfl, by simpa using hc.2⟩
  · exact Or.inl rfl

/-- The accumulated confidence never decreases. -/
lemma selectStep_mono (acc : String × ℚ) (b : Box) : acc.2 ≤ (selectStep acc b).2 := by
  rcases selectStep_cases acc b with h | h
  · rw [h]
  · exact le_of_lt h.2.2.2

/-- After a step on a qualifying box, the accumulated confidence dominates
that box. -/
lemma selectStep_qual_le (acc : String × ℚ) (b : Box) (h : qualifiesB b = true) :
    b.conf ≤ (selectStep acc b).2 := by
  unfold qualifiesB at h
  unfold selectStep
  split_ifs with hc
  · rcases hm : LABEL_MAPPING b.label with _ | cat
    · simp_all
    · simp [hm]
  · have h60 : b.conf > 60 := by simpa using (Bool.and_elim_left (by simpa using h))
    have : ¬ b.conf > acc.2 := fun hgt => hc ⟨h60, hgt⟩
    simpa using le_of_not_lt this

/-- Main invariant of the detection fold: the result is the starting
accumulator or the image of a qualifying box; the confidence is monotone; and
it dominates every qualifying box of the list. -/
lemma foldl_selectStep_spec (boxes : List Box) (acc : String × ℚ) :
    (boxes.foldl selectStep acc = acc ∨
       ∃ b, b ∈ boxes ∧ qualifiesB b = true ∧
         LABEL_MAPPING b.label = some (boxes.foldl selectStep acc).1 ∧
         b.conf = (boxes.foldl selectStep acc).2) ∧
    acc.2 ≤ (boxes.foldl selectStep acc).2 ∧
    ∀ b, b ∈ boxes → qualifiesB b = true → b.conf ≤ (boxes.foldl selectStep acc).2 := by
  induction boxes generalizing acc with
  | nil => simp
  | cons x xs ih =>
    have hx := ih (selectStep acc x)
    have hmonoRest : (selectStep acc x).2 ≤ ((x :: xs).foldl selectStep acc).2 := by
      simpa using hx.2.1
    refine ⟨?_, ?_, ?_⟩
    · rcases hx.1 with hkeep | ⟨b, hb, hq, hm, hc⟩
      · rcases selectStep_cases acc x with h0 | ⟨hq, hm, hc, _⟩
        · exact Or.inl (by simpa [h0] using hkeep)
        · refine Or.inr ⟨x, List.mem_cons_self x xs, hq, ?_, ?_⟩
          · simpa [hkeep] using hm
          · simpa [hkeep] using hc.symm
      · exact Or.inr ⟨b, List.mem_cons_of_mem x hb, hq, by simpa using hm, by simpa using hc⟩
    · exact le_trans (selectStep_mono acc x) hmonoRest
    · intro b hb hq
      rcases List.mem_cons.mp hb with rfl | hb
      · exact le_trans (selectStep_qual_le acc b hq) hmonoRest
      · simpa using hx.2.2 b hb hq

/-- If no box qualifies, the fold keeps the accumulator. -/
lemma foldl_selectStep_none (boxes : List Box) (acc : String × ℚ)
    (h : ∀ b, b ∈ boxes → ¬ qualifiesB b = true) :
    boxes.foldl selectStep acc = acc := by
  induction boxes generalizing acc with
  | nil => rfl
  | cons x xs ih =>
    have hx : selectStep acc x = acc := selectStep_not_qual acc x (h x (List.mem_cons_self x xs))
    simpa [hx] using ih acc fun b hb => h b (List.mem_cons_of_mem x hb)

/-- Dropping the non-qualifying boxes does not change the fold. -/
lemma foldl_selectStep_filter (boxes : List Box) (acc : String × ℚ) :
    (boxes.filter qualifiesB).foldl selectStep acc = boxes.foldl selectStep acc := by
  induction boxes generalizing acc with
  | nil => rfl
  | cons x xs ih =>
    by_cases hq : qualifiesB x = true
    · simp [List.filter_cons, hq, ih]
    · have hx : selectStep acc x = acc := selectStep_not_qual acc x hq
      simp [List.filter_cons, hq, hx, ih]

/-- C2: For every finite sequence of detections, the classifier selection
keeps the single highest-confidence detection among those with confidence
strictly above 60% whose label is in the static label-mapping table, ignoring
all others (dropping them from the list changes nothing); if no detection
qualifies the result is `UNIDENTIFIED` with confidence 0; and on the
detections (plastic, 55), (paper, 72), (unknown, 99) the selected result is
(PAPER, 72). -/
theorem C2_selection_policy :
    (∀ boxes : List Box, (∀ b, b ∈ boxes → ¬ qualifiesB b = true) →
       classifyOutcome boxes = (("UNIDENTIFIED"), 0)) ∧
    (∀ boxes : List Box, ∀ b0, b0 ∈ boxes → qualifiesB b0 = true →
       (∃ b, b ∈ boxes ∧ qualifiesB b = true ∧
          LABEL_MAPPING b.label = some (classifyOutcome boxes).1 ∧
          b.conf = (classifyOutcome boxes).2) ∧
       (∀ b, b ∈ boxes → qualifiesB b = true → b.conf ≤ (classifyOutcome boxes).2)) ∧
    (∀ boxes : List Box, classifyOutcome (boxes.filter qualifiesB) = classifyOutcome boxes) ∧
    classifyOutcome [⟨55, ("plastic")⟩, ⟨72, ("paper")⟩, ⟨99, ("unknown")⟩]
      = (("PAPER"), 72) := by
  have hbest : ∀ boxes : List Box, ∀ b0, b0 ∈ boxes → qualifiesB b0 = true →
      ¬ (selectBest boxes).1 = ("") ∧
      (∃ b, b ∈ boxes ∧ qualifiesB b = true ∧
         LABEL_MAPPING b.label = some (selectBest boxes).1 ∧
         b.conf = (selectBest boxes).2) ∧
      (∀ b, b ∈ boxes → qualifiesB b = true → b.conf ≤ (selectBest boxes).2) := by
    intro boxes b0 hb0 hq0
    have hs := foldl_selectStep_spec boxes (("", 0))
    have h60 : (60 : ℚ) < b0.conf := by
      have := (Bool.and_elim_left (by simpa [qualifiesB] using hq0))
      simpa using this
    have hpos : (0 : ℚ) < (selectBest boxes).2 := by
      have hle : b0.conf ≤ (selectBest boxes).2 := hs.2.2 b0 hb0 hq0
      linarith
    have hne : ¬ (boxes.foldl selectStep (("", 0)) = (("", 0))) := by
      intro h
      rw [show selectBest boxes = boxes.foldl selectStep (("", 0)) from rfl, h] at hpos
      exact lt_irrefl 0 hpos
    rcases hs.1 with h | ⟨b, hb, hq, hm, hc⟩
    · exact absurd h hne
    · exact ⟨LABEL_MAPPING_ne_empty b.label _ hm, ⟨b, hb, hq, hm, hc⟩, hs.2.2⟩
  refine ⟨?_, ?_, ?_, by decide⟩
  · intro boxes h
    have : selectBest boxes = (("", 0)) := foldl_selectStep_none boxes (("", 0)) h
    simp [classifyOutcome, this]
  · intro boxes b0 hb0 hq0
    have h := hbest boxes b0 hb0 hq0
    have hout : classifyOutcome boxes = selectBest boxes := by
      simp [classifyOutcome, h.1]
    rw [hout]
    exact h.2
  · intro boxes
    have : selectBest (boxes.filter qualifiesB) = selectBest boxes :=
      foldl_selectStep_filter boxes (("", 0))
    simp [classifyOutcome, this]

/-- Witness for C2: the first conjunct applied at the empty detection list. -/
theorem C2_selection_policy_witness :
    classifyOutcome [] = (("UNIDENTIFIED"), 0) :=
  C2_selection_policy.1 [] (by simp)

/-- C3: `should_lights_be_on` at time `t` after a `turn_on_lights` call at
time `now` is true iff `t < now + LIGHT_ON_DURATION`; re-activation
unconditionally overwrites the expiry to the new call time plus the
duration, which never shortens the window when the clock is monotone. -/
theorem C3_light_window :
    (∀ (s : SysState) (now t : ℚ),
       should_lights_be_on t (turn_on_lights now s) = true ↔ t < now + LIGHT_ON_DURATION) ∧
    (∀ (s : SysState) (now : ℚ),
       (turn_on_lights now s).lights_on_until = now + LIGHT_ON_DURATION) ∧
    (∀ (s : SysState) (now1 now2 : ℚ), now1 ≤ now2 →
       (turn_on_lights now1 s).lights_on_until ≤
         (turn_on_lights now2 (turn_on_lights now1 s)).lights_on_until) := by
  refine ⟨?_, ?_, ?_⟩
  · intro s now t
    simp [should_lights_be_on, turn_on_lights]
  · intro s now
    rfl
  · intro s now1 now2 h
    simpa [turn_on_lights] using add_le_add_right h LIGHT_ON_DURATION

/-- Witness for C3: re-arming one second later extends the expiry. -/
theorem C3_light_window_witness :
    (turn_on_lights 0 (initState true)).lights_on_until ≤
      (turn_on_lights 1 (turn_on_lights 0 (initState true))).lights_on_until :=
  C3_light_window.2.2 (initState true) 0 1 (by norm_num)

/-! ### Lemmas about `detect_motion` traces -/

/-- After any `detect_motion` call the stored previous sample is the current
one. -/
lemma detect_motion_snd (previous : Option ℚ) (d : ℚ) :
    (detect_motion previous d).2 = some d := by
  cases previous <;> rfl

/-- The flag produced for the last of two appended samples is computed from
exactly those two samples, whatever came before. -/
lemma runMotion_last_two (previous : Option ℚ) (l : List ℚ) (d1 d2 : ℚ) :
    runMotion previous (l ++ [d1, d2])
      = runMotion previous (l ++ [d1]) ++ [decide (|d2 - d1| > 5)] := by
  induction l generalizing previous with
  | nil =>
    simp only [List.nil_append, runMotion, detect_motion_snd]
    rfl
  | cons x xs ih => simp [runMotion, detect_motion_snd, ih]

/-- C8: `detect_motion` returns false on the very first sample after
construction or reset (no stored previous sample), and it returns true
exactly when the current sample differs from the immediately preceding one by
more than 5.0 cm — in a trace, the flag for the final sample is a function of
the last two samples only. -/
theorem C8_motion_baseline :
    (∀ d : ℚ, detect_motion none d = (false, some d)) ∧
    (∀ p d : ℚ, ((detect_motion (some p) d).1 = true ↔ |d - p| > 5) ∧
       (detect_motion (some p) d).2 = some d) ∧
    (∀ (previous : Option ℚ) (l : List ℚ) (d1 d2 : ℚ),
       runMotion previous (l ++ [d1, d2])
         = runMotion previous (l ++ [d1]) ++ [decide (|d2 - d1| > 5)]) := by
  refine ⟨fun d => rfl, fun p d => ⟨by simp [detect_motion], rfl⟩, runMotion_last_two⟩

/-! ### Lemmas about the echo busy-wait loops -/

/-- If the echo line is stuck at the waited level, the loop times out,
returning at the first clock value past the shared deadline. -/
lemma echoWait_stuck_aux (echo : Nat → Bool) (w : Bool) (timeout : Nat)
    (hstuck : ∀ t, echo t = w) :
    ∀ n t last, timeout + 1 ≤ t + n → t ≤ timeout + 1 →
      echoWait echo w timeout t last = (none, timeout + 1) := by
  intro n
  induction n with
  | zero =>
    intro t last h1 h2
    have ht : t = timeout + 1 := by omega
    subst ht
    rw [echoWait, hstuck]
    simp
  | succ n ih =>
    intro t last h1 h2
    rw [echoWait, hstuck]
    by_cases hgt : t > timeout
    · have ht : t = timeout + 1 := by omega
      simp [hgt, ht]
    · simp [hgt]
      exact ih (t + 1) t (by omega) (by omega)

/-- Whatever the echo line does, the loop returns no later than one
granularity unit past the shared deadline. -/
lemma echoWait_time_le_aux (echo : Nat → Bool) (w : Bool) (timeout : Nat) :
    ∀ n t last, timeout + 1 ≤ t + n → t ≤ timeout + 1 →
      (echoWait echo w timeout t last).2 ≤ timeout + 1 := by
  intro n
  induction n with
  | zero =>
    intro t last h1 h2
    have ht : t = timeout + 1 := by omega
    subst ht
    rw [echoWait]
    by_cases he : echo (timeout + 1) = w
    · simp [he, Nat.lt_succ_self]
    · simp [he]
  | succ n ih =>
    intro t last h1 h2
    rw [echoWait]
    by_cases he : echo t = w
    · by_cases hgt : t > timeout
      · simp [he, hgt]
        omega
      · simp [he, hgt]
        exact ih (t + 1) t (by omega) (by omega)
    · simp [he]
      omega

/-- Stuck-line timeout, entry-point form. -/
lemma echoWait_stuck (echo : Nat → Bool) (w : Bool) (timeout t last : Nat)
    (hstuck : ∀ u, echo u = w) (ht : t ≤ timeout + 1) :
    echoWait echo w timeout t last = (none, timeout + 1) :=
  echoWait_stuck_aux echo w timeout hstuck (timeout + 1) t last (by omega) ht

/-- Return-time bound, entry-point form. -/
lemma echoWait_time_le (echo : Nat → Bool) (w : Bool) (timeout t last : Nat)
    (ht : t ≤ timeout + 1) :
    (echoWait echo w timeout t last).2 ≤ timeout + 1 :=
  echoWait_time_le_aux echo w timeout (timeout + 1) t last (by omega) ht

/-- Immediate exit when the line is already past the waited level. -/
lemma echoWait_exit (echo : Nat → Bool) (w : Bool) (timeout t last : Nat)
    (he : ¬ echo t = w) :
    echoWait echo w timeout t last = (some last, t) := by
  rw [echoWait]
  simp [he]

/-- C5: For every behaviour of the echo line `measure_distance` returns by
clock `t0 + ECHO_TIMEOUT + 1` (the 100 ms deadline computed once at call
start, plus one read-loop granularity); in particular a line stuck
permanently low or permanently high yields the no-reading marker `none`
exactly at that clock — both wait loops check the one shared deadline. -/
theorem C5_measure_distance_timeout :
    (∀ (echo : Nat → Bool) (t0 : Nat), (∀ t, echo t = false) →
       measure_distance echo t0 = (none, t0 + ECHO_TIMEOUT + 1)) ∧
    (∀ (echo : Nat → Bool) (t0 : Nat), (∀ t, echo t = true) →
       measure_distance echo t0 = (none, t0 + ECHO_TIMEOUT + 1)) ∧
    (∀ (echo : Nat → Bool) (t0 : Nat),
       (measure_distance echo t0).2 ≤ t0 + ECHO_TIMEOUT + 1) := by
  refine ⟨?_, ?_, ?_⟩
  · intro echo t0 hstuck
    unfold measure_distance
    rw [echoWait_stuck echo false (t0 + ECHO_TIMEOUT) t0 t0 hstuck (by omega)]
  · intro echo t0 hstuck
    unfold measure_distance
    rw [echoWait_exit echo false (t0 + ECHO_TIMEOUT) t0 t0 (by simp [hstuck])]
    dsimp only
    rw [echoWait_stuck echo true (t0 + ECHO_TIMEOUT) t0 t0 hstuck (by omega)]
  · intro echo t0
    unfold measure_distance
    rcases h1 : echoWait echo false (t0 + ECHO_TIMEOUT) t0 t0 with ⟨r1, t1⟩
    have hb1 : t1 ≤ t0 + ECHO_TIMEOUT + 1 := by
      have := echoWait_time_le echo false (t0 + ECHO_TIMEOUT) t0 t0 (by omega)
      rw [h1] at this
      exact this
    rcases r1 with _ | pulseStart
    · simpa using hb1
    · rcases h2 : echoWait echo true (t0 + ECHO_TIMEOUT) t1 t1 with ⟨r2, t2⟩
      have hb2 : t2 ≤ t0 + ECHO_TIMEOUT + 1 := by
        have := echoWait_time_le echo true (t0 + ECHO_TIMEOUT) t1 t1 hb1
        rw [h2] at this
        exact this
      rcases r2 with _ | pulseEnd <;> simpa [h2] using hb2

/-- Witness for C5: an echo line that never goes high times out at clock
101 when the call starts at clock 0. -/
theorem C5_measure_distance_timeout_witness :
    measure_distance (fun _ => false) 0 = (none, 101) := by
  have h := C5_measure_distance_timeout.1 (fun _ => false) 0 (fun _ => rfl)
  simpa [ECHO_TIMEOUT] using h

/-! ### Lemmas about `classify_waste` -/

/-- Within the cooldown, `classify_waste` is a pure no-op. -/
lemma classify_waste_noop (env : CaptureEnv) (now : ℚ) (s : SysState)
    (h1 : s.camOk = true) (h2 : now - s.last_classification_time < CLASSIFICATION_DELAY) :
    classify_waste env now s = ⟨s, false, false⟩ := by
  simp [classify_waste, h1, h2]

/-- A fully completed attempt: the new state spelled out; in particular the
cooldown timestamp becomes `now` (line 296). -/
lemma classify_waste_ok (boxes : List Box) (now : ℚ) (s : SysState)
    (h1 : s.camOk = true) (h2 : ¬ (now - s.last_classification_time < CLASSIFICATION_DELAY)) :
    classify_waste (CaptureEnv.ok boxes) now s
      = ⟨{ s with camera_window_open := true,
                  last_classification := (classifyOutcome boxes).1,
                  classification_confidence := (classifyOutcome boxes).2,
                  last_classification_time := now }, true, true⟩ := by
  simp [classify_waste, h1, h2]

/-- C1 counterexample: with the cooldown elapsed and the captured frame
empty, the classification does NOT become `CAMERA ERROR` and the cooldown
timestamp is NOT updated — whereas the normal successful attempt at the same
instant sets the timestamp to the call time.  This refutes the claim that a
failed attempt consumes the cooldown slot the same way as a success. -/
theorem C1_error_paths_counterexample :
    (10 : ℚ) - (initState true).last_classification_time ≥ CLASSIFICATION_DELAY ∧
    ¬ (classify_waste CaptureEnv.emptyFrame 10 (initState true)).state.last_classification
        = ("CAMERA ERROR") ∧
    ¬ (classify_waste CaptureEnv.emptyFrame 10 (initState true)).state.last_classification_time
        = 10 ∧
    (classify_waste (CaptureEnv.ok []) 10 (initState true)).state.last_classification_time
        = 10 := by
  norm_num [classify_waste, initState, CLASSIFICATION_DELAY]
  decide

/-- C1 (amended): with the cooldown elapsed, an empty/missing frame is a
pure no-op (no `CAMERA ERROR`, no cooldown-timestamp update); an exception
during capture, inference or rendering sets `CAMERA ERROR` with confidence 0
but also leaves the cooldown timestamp untouched; only a fully completed
attempt updates the cooldown timestamp to the call time. -/
theorem C1_error_paths :
    ∀ (now : ℚ) (s : SysState),
      s.camOk = true → now - s.last_classification_time ≥ CLASSIFICATION_DELAY →
      (classify_waste CaptureEnv.emptyFrame now s = ⟨s, true, false⟩) ∧
      ((classify_waste CaptureEnv.captureRaises now s).state.last_classification
          = ("CAMERA ERROR") ∧
       (classify_waste CaptureEnv.captureRaises now s).state.classification_confidence = 0 ∧
       (classify_waste CaptureEnv.captureRaises now s).state.last_classification_time
          = s.last_classification_time) ∧
      ((classify_waste CaptureEnv.inferRaises now s).state.last_classification
          = ("CAMERA ERROR") ∧
       (classify_waste CaptureEnv.inferRaises now s).state.last_classification_time
          = s.last_classification_time) ∧
      (∀ boxes : List Box,
         (classify_waste (CaptureEnv.renderRaises boxes) now s).state.last_classification
            = ("CAMERA ERROR") ∧
         (classify_waste (CaptureEnv.renderRaises boxes) now s).state.last_classification_time
            = s.last_classification_time) ∧
      (∀ boxes : List Box,
         (classify_waste (CaptureEnv.ok boxes) now s).state.last_classification_time = now) := by
  intro now s h1 h2
  have hn : ¬ (now - s.last_classification_time < CLASSIFICATION_DELAY) := not_lt.mpr h2
  refine ⟨?_, ?_, ?_, ?_, ?_⟩ <;> simp [classify_waste, h1, hn]

/-- Witness for C1 (amended): the empty-frame no-op at a concrete state. -/
theorem C1_error_paths_witness :
    classify_waste CaptureEnv.emptyFrame 10 (initState true) = ⟨initState true, true, false⟩ :=
  (C1_error_paths 10 (initState true) rfl
    (by norm_num [initState, CLASSIFICATION_DELAY])).1

/-- C7 counterexample: two `classify_waste` calls half a second apart can
BOTH perform a full capture+infer, because the cooldown timestamp is only
written by a fully completed attempt: here the first call completes capture
and inference but an exception during rendering skips line 296, so the
second call's cooldown check still compares against the stale timestamp. -/
theorem C7_throttle_counterexample :
    ((21 : ℚ) / 2 - 10 < CLASSIFICATION_DELAY) ∧
    (classify_waste (CaptureEnv.renderRaises []) 10 (initState true)).captured = true ∧
    (classify_waste (CaptureEnv.renderRaises []) 10 (initState true)).inferred = true ∧
    (classify_waste (CaptureEnv.ok []) ((21 : ℚ) / 2)
        (classify_waste (CaptureEnv.renderRaises []) 10 (initState true)).state).captured
      = true ∧
    (classify_waste (CaptureEnv.ok []) ((21 : ℚ) / 2)
        (classify_waste (CaptureEnv.renderRaises []) 10 (initState true)).state).inferred
      = true := by
  norm_num [classify_waste, initState, CLASSIFICATION_DELAY]

/-- C7 (amended): a call within the cooldown of the last attempt that
completed is a pure no-op (no capture, no inference, no state change); in
particular, after a fully completed attempt at `now1`, any call less than
the cooldown later performs no capture+infer — so at most one of two calls
within one cooldown captures, provided the earlier one completed. -/
theorem C7_throttle :
    (∀ (env : CaptureEnv) (now : ℚ) (s : SysState),
       s.camOk = true → now - s.last_classification_time < CLASSIFICATION_DELAY →
       classify_waste env now s = ⟨s, false, false⟩) ∧
    (∀ (s : SysState) (now1 now2 : ℚ) (boxes : List Box) (env2 : CaptureEnv),
       s.camOk = true →
       now1 - s.last_classification_time ≥ CLASSIFICATION_DELAY →
       now2 - now1 < CLASSIFICATION_DELAY →
       classify_waste env2 now2 (classify_waste (CaptureEnv.ok boxes) now1 s).state
         = ⟨(classify_waste (CaptureEnv.ok boxes) now1 s).state, false, false⟩) := by
  refine ⟨classify_waste_noop, ?_⟩
  intro s now1 now2 boxes env2 h1 h2 h3
  have hn1 : ¬ (now1 - s.last_classification_time < CLASSIFICATION_DELAY) := not_lt.mpr h2
  rw [classify_waste_ok boxes now1 s h1 hn1]
  exact classify_waste_noop env2 now2 _ (by simpa using h1) (by simpa using h3)

/-- Witness for C7 (amended): the cooldown no-op at a concrete state. -/
theorem C7_throttle_witness :
    classify_waste CaptureEnv.emptyFrame ((1 : ℚ) / 2) (initState true)
      = ⟨initState true, false, false⟩ :=
  C7_throttle.1 CaptureEnv.emptyFrame ((1 : ℚ) / 2) (initState true) rfl
    (by norm_num [initState, CLASSIFICATION_DELAY])

/-! ### Field-preservation lemmas for the tick phases -/

/-- The arming phase only writes the two window expiries. -/
lemma armPhase_fields (D : ℚ) (inp : TickInput) (s : SysState) :
    (armPhase D inp s).previous_distance = s.previous_distance ∧
    (armPhase D inp s).last_classification = s.last_classification ∧
    (armPhase D inp s).classification_confidence = s.classification_confidence ∧
    (armPhase D inp s).last_classification_time = s.last_classification_time ∧
    (armPhase D inp s).camera_window_open = s.camera_window_open ∧
    (armPhase D inp s).camOk = s.camOk := by
  unfold armPhase
  cases hd : inp.distance
  · simp
  · simp only [hd]
    split_ifs <;> simp

/-- `classify_waste` never writes the window expiries, the stored previous
distance, or the camera flag. -/
lemma classify_waste_fields (env : CaptureEnv) (now : ℚ) (s : SysState) :
    (classify_waste env now s).state.lights_on_until = s.lights_on_until ∧
    (classify_waste env now s).state.camera_active_until = s.camera_active_until ∧
    (classify_waste env now s).state.previous_distance = s.previous_distance ∧
    (classify_waste env now s).state.camOk = s.camOk := by
  unfold classify_waste
  split_ifs <;> first | simp | (cases env <;> simp)

/-- The classification reset only writes the classification pair. -/
lemma resetClassification_fields (s : SysState) :
    (resetClassification s).1.lights_on_until = s.lights_on_until ∧
    (resetClassification s).1.camera_active_until = s.camera_active_until ∧
    (resetClassification s).1.previous_distance = s.previous_distance ∧
    (resetClassification s).1.camera_window_open = s.camera_window_open ∧
    (resetClassification s).1.camOk = s.camOk ∧
    (resetClassification s).1.last_classification_time = s.last_classification_time := by
  unfold resetClassification
  split_ifs <;> simp

/-- The window-close step only writes the window-handle flag. -/
lemma closeCameraWindow_fields (s : SysState) :
    (closeCameraWindow s).1.lights_on_until = s.lights_on_until ∧
    (closeCameraWindow s).1.camera_active_until = s.camera_active_until ∧
    (closeCameraWindow s).1.previous_distance = s.previous_distance ∧
    (closeCameraWindow s).1.last_classification = s.last_classification ∧
    (closeCameraWindow s).1.classification_confidence = s.classification_confidence ∧
    (closeCameraWindow s).1.camOk = s.camOk ∧
    (closeCameraWindow s).1.last_classification_time = s.last_classification_time := by
  unfold closeCameraWindow
  split_ifs <;> simp

/-- The light-expiry management only writes `lights_on_until`. -/
lemma lightsPhase_fields (inp : TickInput) (s : SysState) :
    (lightsPhase inp s).camera_active_until = s.camera_active_until ∧
    (lightsPhase inp s).previous_distance = s.previous_distance ∧
    (lightsPhase inp s).last_classification = s.last_classification ∧
    (lightsPhase inp s).classification_confidence = s.classification_confidence ∧
    (lightsPhase inp s).last_classification_time = s.last_classification_time ∧
    (lightsPhase inp s).camera_window_open = s.camera_window_open ∧
    (lightsPhase inp s).camOk = s.camOk := by
  unfold lightsPhase
  split_ifs <;> simp

/-- The classify/reset phase never writes the window expiries, the stored
previous distance, or the camera flag. -/
lemma classifyPhase_fields (inp : TickInput) (s : SysState) :
    (classifyPhase inp s).state.camera_active_until = s.camera_active_until ∧
    (classifyPhase inp s).state.lights_on_until = s.lights_on_until ∧
    (classifyPhase inp s).state.previous_distance = s.previous_distance ∧
    (classifyPhase inp s).state.camOk = s.camOk := by
  unfold classifyPhase
  split_ifs with h1 h2
  · have h := classify_waste_fields inp.env inp.now s
    exact ⟨h.2.1, h.1, h.2.2.1, h.2.2.2⟩
  · exact ⟨rfl, rfl, rfl, rfl⟩
  · have hr := resetClassification_fields s
    have hc := closeCameraWindow_fields (resetClassification s).1
    exact ⟨hc.2.1.trans hr.2.1, hc.1.trans hr.1, hc.2.2.1.trans hr.2.2.1,
           hc.2.2.2.2.2.1.trans hr.2.2.2.2.1⟩

/-! ### Reset / window-close behaviour on inactive ticks -/

/-- After the reset step the classification is always `"WAITING..."`. -/
lemma resetClassification_waiting (s : SysState) :
    (resetClassification s).1.last_classification = ("WAITING...") := by
  unfold resetClassification
  split_ifs with h
  · rfl
  · exact not_not.mp h

/-- The reset step fires exactly when the classification was not already
`"WAITING..."`. -/
lemma resetClassification_fired (s : SysState) :
    (resetClassification s).2 = true ↔ s.last_classification ≠ ("WAITING...") := by
  unfold resetClassification
  split_ifs with h <;> simp [h]

/-- After the close step the window handle is always closed. -/
lemma closeCameraWindow_closed (s : SysState) :
    (closeCameraWindow s).1.camera_window_open = false := by
  unfold closeCameraWindow
  split_ifs with h
  · rfl
  · simpa using h

/-- The close step fires exactly when the handle was open. -/
lemma closeCameraWindow_fired (s : SysState) :
    (closeCameraWindow s).2 = true ↔ s.camera_window_open = true := by
  unfold closeCameraWindow
  split_ifs with h <;> simp [h]

/-- On a tick whose camera window is inactive, the classify phase lands in
the reset branch: the classification is `"WAITING..."` and the window handle
closed afterwards, and each one-shot action fires iff the corresponding
state needed resetting. -/
lemma classifyPhase_inactive (inp : TickInput) (s : SysState)
    (h : ¬ inp.now < s.camera_active_until) :
    (classifyPhase inp s).state.last_classification = ("WAITING...") ∧
    (classifyPhase inp s).state.camera_window_open = false ∧
    ((classifyPhase inp s).resetFired = true ↔ s.last_classification ≠ ("WAITING...")) ∧
    ((classifyPhase inp s).windowCloseFired = true ↔ s.camera_window_open = true) := by
  unfold classifyPhase
  rw [if_neg h]
  refine ⟨?_, closeCameraWindow_closed _, resetClassification_fired s, ?_⟩
  · exact ((closeCameraWindow_fields (resetClassification s).1).2.2.2.1).trans
      (resetClassification_waiting s)
  · exact (closeCameraWindow_fired _).trans (by rw [(resetClassification_fields s).2.2.2.1])

/-- On a tick whose camera window is active, neither one-shot action fires. -/
lemma classifyPhase_active (inp : TickInput) (s : SysState)
    (h : inp.now < s.camera_active_until) :
    (classifyPhase inp s).resetFired = false ∧
    (classifyPhase inp s).windowCloseFired = false := by
  unfold classifyPhase
  rw [if_pos h]
  split_ifs <;> exact ⟨rfl, rfl⟩

/-- C4 counterexample: arm the camera window at t=0 (object at 40 cm ≤
threshold, window until 15) with a working camera; the classification stays
`"WAITING..."` (the classify call at t=0 is inside the 1 s cooldown of the
initial timestamp 0 and no-ops), so on the tick at t=20 — the tick on which
the window expiry is first crossed — the reset does NOT fire: the transition
can fire zero times in an arm/expire cycle, refuting "fires exactly once". -/
theorem C4_reset_once_counterexample :
    (tick ⟨0, some 40, false, CaptureEnv.ok []⟩ (initState true)).state.camera_active_until
        = 15 ∧
    ¬ ((20 : ℚ) < (armPhase LIGHT_ON_DURATION ⟨20, some 100, false, CaptureEnv.ok []⟩
        (tick ⟨0, some 40, false, CaptureEnv.ok []⟩ (initState true)).state).camera_active_until) ∧
    (tick ⟨20, some 100, false, CaptureEnv.ok []⟩
        (tick ⟨0, some 40, false, CaptureEnv.ok []⟩ (initState true)).state).resetFired
      = false ∧
    (tick ⟨20, some 100, false, CaptureEnv.ok []⟩
        (tick ⟨0, some 40, false, CaptureEnv.ok []⟩ (initState true)).state).windowCloseFired
      = false := by
  norm_num [tick, tickD, armPhase, classifyPhase, lightsPhase, classify_waste,
    resetClassification, closeCameraWindow, initState, object_detected,
    MOTION_THRESHOLD, CAMERA_TIMEOUT, LIGHT_ON_DURATION, CLASSIFICATION_DELAY]

/-- C4 (amended): the one-time reset (classification to `"WAITING..."`,
window handle closed) fires at most once per arm/expire cycle: on an
inactive tick it fires iff the dependent state actually needs resetting,
after any inactive tick the dependent state is reset, it never fires on an
active tick, and it never fires on an inactive tick that follows another
inactive tick. -/
theorem C4_reset_once :
    (∀ (inp : TickInput) (s : SysState),
       ¬ inp.now < (armPhase LIGHT_ON_DURATION inp s).camera_active_until →
       (tick inp s).state.last_classification = ("WAITING...") ∧
       (tick inp s).state.camera_window_open = false ∧
       ((tick inp s).resetFired = true ↔ s.last_classification ≠ ("WAITING...")) ∧
       ((tick inp s).windowCloseFired = true ↔ s.camera_window_open = true)) ∧
    (∀ (inp : TickInput) (s : SysState),
       inp.now < (armPhase LIGHT_ON_DURATION inp s).camera_active_until →
       (tick inp s).resetFired = false ∧ (tick inp s).windowCloseFired = false) ∧
    (∀ (s : SysState) (i1 i2 : TickInput),
       ¬ i1.now < (armPhase LIGHT_ON_DURATION i1 s).camera_active_until →
       ¬ i2.now < (armPhase LIGHT_ON_DURATION i2 (tick i1 s).state).camera_active_until →
       (tick i2 (tick i1 s).state).resetFired = false ∧
       (tick i2 (tick i1 s).state).windowCloseFired = false) := by
  have hmain : ∀ (inp : TickInput) (s : SysState),
      ¬ inp.now < (armPhase LIGHT_ON_DURATION inp s).camera_active_until →
      (tick inp s).state.last_classification = ("WAITING...") ∧
      (tick inp s).state.camera_window_open = false ∧
      ((tick inp s).resetFired = true ↔ s.last_classification ≠ ("WAITING...")) ∧
      ((tick inp s).windowCloseFired = true ↔ s.camera_window_open = true) := by
    intro inp s h
    have harm := armPhase_fields LIGHT_ON_DURATION inp s
    have hcp := classifyPhase_inactive inp (armPhase LIGHT_ON_DURATION inp s) h
    have hlp := lightsPhase_fields inp
      (classifyPhase inp (armPhase LIGHT_ON_DURATION inp s)).state
    refine ⟨?_, ?_, ?_, ?_⟩
    · exact hlp.2.2.1.trans hcp.1
    · exact hlp.2.2.2.2.2.1.trans hcp.2.1
    · exact hcp.2.2.1.trans (by rw [harm.2.1])
    · exact hcp.2.2.2.trans (by rw [harm.2.2.2.2.1])
  refine ⟨hmain, ?_, ?_⟩
  · intro inp s h
    exact classifyPhase_active inp (armPhase LIGHT_ON_DURATION inp s) h
  · intro s i1 i2 h1 h2
    have hpost := hmain i1 s h1
    have h2nd := hmain i2 (tick i1 s).state h2
    constructor
    · rw [← Bool.not_eq_true]
      intro hf
      exact (h2nd.2.2.1.mp hf) hpost.1
    · rw [← Bool.not_eq_true]
      intro hf
      rw [h2nd.2.2.2.mp hf] at hpost
      exact Bool.true_eq_false.mp hpost.2.1

/-- Witness for C4 (amended): on an inactive tick from the fresh state the
reset does not fire (the classification is already `"WAITING..."`). -/
theorem C4_reset_once_witness :
    (tick ⟨1, none, false, CaptureEnv.emptyFrame⟩ (initState false)).resetFired ≠ true :=
  fun hf =>
    ((C4_reset_once.1 ⟨1, none, false, CaptureEnv.emptyFrame⟩ (initState false)
        (by norm_num [armPhase, initState])).2.2.1.mp hf) rfl

/-! ### Arming characterization -/

/-- With a distance reading, the camera window after the arming phase. -/
lemma armPhase_cam (D : ℚ) (inp : TickInput) (s : SysState) (d : ℚ)
    (hd : inp.distance = some d) :
    (armPhase D inp s).camera_active_until
      = if d ≤ MOTION_THRESHOLD then inp.now + CAMERA_TIMEOUT else s.camera_active_until := by
  unfold armPhase
  rw [hd]
  simp only [object_detected]
  split_ifs <;> simp_all

/-- With a distance reading, the light window after the arming phase. -/
lemma armPhase_lights (D : ℚ) (inp : TickInput) (s : SysState) (d : ℚ)
    (hd : inp.distance = some d) :
    (armPhase D inp s).lights_on_until
      = if d ≤ MOTION_THRESHOLD ∧ inp.dark = true then inp.now + D else s.lights_on_until := by
  unfold armPhase
  rw [hd]
  simp only [object_detected]
  split_ifs <;> simp_all

/-- C6: on a tick with a distance reading, the camera window is re-armed to
`now + CAMERA_TIMEOUT` exactly when `distance ≤ MOTION_THRESHOLD` (50 cm),
the light window is armed to `now + D` exactly when additionally the
environment is dark (otherwise it is left alone or merely expired to 0), and
in the §8 scenario — readings 100, 100, 40, 100 at t = 0, 1, 2, 3, dark,
light duration 5 — the light window arms at t = 2 to expiry 7, is active at
t = 3..6, and is inactive at t = 7 and t = 8. -/
theorem C6_arming :
    (∀ (D : ℚ) (inp : TickInput) (s : SysState) (d : ℚ), inp.distance = some d →
       (tickD D inp s).state.camera_active_until
         = if d ≤ MOTION_THRESHOLD then inp.now + CAMERA_TIMEOUT else s.camera_active_until) ∧
    (∀ (D : ℚ) (inp : TickInput) (s : SysState) (d : ℚ), 0 < D → inp.distance = some d →
       (d ≤ MOTION_THRESHOLD ∧ inp.dark = true →
          (tickD D inp s).state.lights_on_until = inp.now + D) ∧
       (¬ (d ≤ MOTION_THRESHOLD ∧ inp.dark = true) →
          (tickD D inp s).state.lights_on_until = s.lights_on_until ∨
          (tickD D inp s).state.lights_on_until = 0)) ∧
    ((runTicksD 5 [⟨0, some 100, true, CaptureEnv.emptyFrame⟩,
        ⟨1, some 100, true, CaptureEnv.emptyFrame⟩] (initState false)).lights_on_until = 0 ∧
     (runTicksD 5 [⟨0, some 100, true, CaptureEnv.emptyFrame⟩,
        ⟨1, some 100, true, CaptureEnv.emptyFrame⟩,
        ⟨2, some 40, true, CaptureEnv.emptyFrame⟩] (initState false)).lights_on_until = 7 ∧
     (runTicksD 5 [⟨0, some 100, true, CaptureEnv.emptyFrame⟩,
        ⟨1, some 100, true, CaptureEnv.emptyFrame⟩,
        ⟨2, some 40, true, CaptureEnv.emptyFrame⟩,
        ⟨3, some 100, true, CaptureEnv.emptyFrame⟩] (initState false)).lights_on_until = 7 ∧
     (∀ t : ℚ, should_lights_be_on t
        (runTicksD 5 [⟨0, some 100, true, CaptureEnv.emptyFrame⟩,
          ⟨1, some 100, true, CaptureEnv.emptyFrame⟩,
          ⟨2, some 40, true, CaptureEnv.emptyFrame⟩,
          ⟨3, some 100, true, CaptureEnv.emptyFrame⟩] (initState false)) = true ↔ t < 7)) := by
  have hcam : ∀ (D : ℚ) (inp : TickInput) (s : SysState) (d : ℚ), inp.distance = some d →
      (tickD D inp s).state.camera_active_until
        = if d ≤ MOTION_THRESHOLD then inp.now + CAMERA_TIMEOUT else s.camera_active_until := by
    intro D inp s d hd
    have h1 := (lightsPhase_fields inp (classifyPhase inp (armPhase D inp s)).state).1
    have h2 := (classifyPhase_fields inp (armPhase D inp s)).1
    exact (h1.trans h2).trans (armPhase_cam D inp s d hd)
  have hfinal : (runTicksD 5 [⟨0, some 100, true, CaptureEnv.emptyFrame⟩,
        ⟨1, some 100, true, CaptureEnv.emptyFrame⟩,
        ⟨2, some 40, true, CaptureEnv.emptyFrame⟩,
        ⟨3, some 100, true, CaptureEnv.emptyFrame⟩] (initState false)).lights_on_until = 7 := by
    norm_num [runTicksD, tickD, armPhase, classifyPhase, lightsPhase, classify_waste,
      resetClassification, closeCameraWindow, initState, object_detected,
      MOTION_THRESHOLD, CAMERA_TIMEOUT, CLASSIFICATION_DELAY]
  refine ⟨hcam, ?_, ?_, ?_, hfinal, ?_⟩
  · intro D inp s d hD hd
    have hlights : (tickD D inp s).state.lights_on_until
        = (lightsPhase inp (classifyPhase inp (armPhase D inp s)).state).lights_on_until := rfl
    have harm := armPhase_lights D inp s d hd
    have hcp := (classifyPhase_fields inp (armPhase D inp s)).2.1
    constructor
    · intro hod
      have hX : (classifyPhase inp (armPhase D inp s)).state.lights_on_until = inp.now + D := by
        rw [hcp, harm, if_pos hod]
      rw [hlights]
      unfold lightsPhase
      split_ifs with h
      · exfalso
        rw [hX] at h
        exact h.1 (by linarith)
      · exact hX
    · intro hod
      have hX : (classifyPhase inp (armPhase D inp s)).state.lights_on_until
          = s.lights_on_until := by
        rw [hcp, harm, if_neg hod]
      rw [hlights]
      unfold lightsPhase
      split_ifs with h
      · exact Or.inr (by simp)
      · exact Or.inl hX
  · norm_num [runTicksD, tickD, armPhase, classifyPhase, lightsPhase, classify_waste,
      resetClassification, closeCameraWindow, initState, object_detected,
      MOTION_THRESHOLD, CAMERA_TIMEOUT, CLASSIFICATION_DELAY]
  · norm_num [runTicksD, tickD, armPhase, classifyPhase, lightsPhase, classify_waste,
      resetClassification, closeCameraWindow, initState, object_detected,
      MOTION_THRESHOLD, CAMERA_TIMEOUT, CLASSIFICATION_DELAY]
  · intro t
    rw [should_lights_be_on, hfinal]
    simp

/-- Witness for C6: on a concrete tick with reading 40 cm at t = 2, dark,
light duration 5, the light window arms to 7, and the scenario's light
window is inactive at t = 8. -/
theorem C6_arming_witness :
    (tickD 5 ⟨2, some 40, true, CaptureEnv.emptyFrame⟩ (initState false)).state.lights_on_until
        = 7 ∧
    should_lights_be_on 8
      (runTicksD 5 [⟨0, some 100, true, CaptureEnv.emptyFrame⟩,
        ⟨1, some 100, true, CaptureEnv.emptyFrame⟩,
        ⟨2, some 40, true, CaptureEnv.emptyFrame⟩,
        ⟨3, some 100, true, CaptureEnv.emptyFrame⟩] (initState false)) = false := by
  constructor
  · have h := (C6_arming.2.1 5 ⟨2, some 40, true, CaptureEnv.emptyFrame⟩ (initState false) 40
      (by norm_num) rfl).1 (by norm_num [MOTION_THRESHOLD])
    rw [h]
    norm_num
  · have h := (C6_arming.2.2.2.2.2 8).not
    simp only [Bool.not_eq_true] at h
    exact h.mpr (by norm_num)

/-! ### The failed-initialization invariant -/

/-- When the camera/model never initialized and the classification is
`"WAITING..."`, the classify phase keeps the classification. -/
lemma classifyPhase_failed_waiting (inp : TickInput) (s : SysState)
    (hok : s.camOk = false) (hw : s.last_classification = ("WAITING...")) :
    (classifyPhase inp s).state.last_classification = ("WAITING...") := by
  unfold classifyPhase
  split_ifs with h1 h2
  · rw [hok] at h2
    cases h2
  · exact hw
  · exact ((closeCameraWindow_fields _).2.2.2.1).trans (resetClassification_waiting s)

/-- One tick preserves the failed-initialization invariant. -/
lemma tickD_failed_step (D : ℚ) (inp : TickInput) (s : SysState)
    (h1 : s.camOk = false) (h2 : s.last_classification = ("WAITING...")) :
    (tickD D inp s).state.camOk = false ∧
    (tickD D inp s).state.last_classification = ("WAITING...") := by
  have harm := armPhase_fields D inp s
  have hcp := classifyPhase_fields inp (armPhase D inp s)
  have hlp := lightsPhase_fields inp (classifyPhase inp (armPhase D inp s)).state
  constructor
  · exact (hlp.2.2.2.2.2.2.trans hcp.2.2.2).trans (harm.2.2.2.2.2.trans h1)
  · exact hlp.2.2.1.trans (classifyPhase_failed_waiting inp (armPhase D inp s)
      (harm.2.2.2.2.2.trans h1) (harm.2.1.trans h2))

/-- C9: if camera or model initialization failed at startup, every call to
`classify_waste` returns immediately without modifying any state, and along
every run of the monitoring loop from the failed-init start state the
classification result remains `"WAITING..."` — in particular `CAMERA ERROR`
is never reported for this failure mode. -/
theorem C9_init_failure :
    (∀ (env : CaptureEnv) (now : ℚ) (s : SysState), s.camOk = false →
       classify_waste env now s = ⟨s, false, false⟩) ∧
    (∀ inputs : List TickInput,
       (runTicks inputs (initState false)).last_classification = ("WAITING...") ∧
       ¬ (runTicks inputs (initState false)).last_classification = ("CAMERA ERROR")) := by
  have hind : ∀ (inputs : List TickInput) (s : SysState), s.camOk = false →
      s.last_classification = ("WAITING...") →
      (runTicksD LIGHT_ON_DURATION inputs s).camOk = false ∧
      (runTicksD LIGHT_ON_DURATION inputs s).last_classification = ("WAITING...") := by
    intro inputs
    induction inputs with
    | nil => exact fun s h1 h2 => ⟨h1, h2⟩
    | cons i rest ih =>
      intro s h1 h2
      have hstep := tickD_failed_step LIGHT_ON_DURATION i s h1 h2
      exact ih ((tickD LIGHT_ON_DURATION i s).state) hstep.1 hstep.2
  constructor
  · intro env now s h
    simp [classify_waste, h]
  · intro inputs
    have h := hind inputs (initState false) rfl rfl
    refine ⟨h.2, ?_⟩
    rw [show runTicks inputs (initState false)
          = runTicksD LIGHT_ON_DURATION inputs (initState false) from rfl, h.2]
    decide

/-- Witness for C9: a concrete call on the failed-init state is a no-op. -/
theorem C9_init_failure_witness :
    classify_waste CaptureEnv.captureRaises 5 (initState false)
      = ⟨initState false, false, false⟩ :=
  C9_init_failure.1 CaptureEnv.captureRaises 5 (initState false) rfl

/-! ### Non-interference of the stored previous distance -/

/-- The arming phase commutes with overwriting `previous_distance`. -/
lemma armPhase_prev (D : ℚ) (inp : TickInput) (s : SysState) (p : Option ℚ) :
    armPhase D inp { s with previous_distance := p }
      = { armPhase D inp s with previous_distance := p } := by
  unfold armPhase
  cases hd : inp.distance
  · rfl
  · simp only [hd]
    split_ifs <;> rfl

/-- `classify_waste` commutes with overwriting `previous_distance`. -/
lemma classify_waste_prev (env : CaptureEnv) (now : ℚ) (s : SysState) (p : Option ℚ) :
    classify_waste env now { s with previous_distance := p }
      = ⟨{ (classify_waste env now s).state with previous_distance := p },
         (classify_waste env now s).captured, (classify_waste env now s).inferred⟩ := by
  unfold classify_waste
  by_cases h1 : s.camOk = false
  · simp [h1]
  · by_cases h2 : now - s.last_classification_time < CLASSIFICATION_DELAY
    · simp [h1, h2]
    · cases env <;> simp [h1, h2]

/-- The classification reset commutes with overwriting `previous_distance`. -/
lemma resetClassification_prev (s : SysState) (p : Option ℚ) :
    resetClassification { s with previous_distance := p }
      = ({ (resetClassification s).1 with previous_distance := p },
         (resetClassification s).2) := by
  unfold resetClassification
  by_cases h : s.last_classification = ("WAITING...") <;> simp [h]

/-- The window-close step commutes with overwriting `previous_distance`. -/
lemma closeCameraWindow_prev (s : SysState) (p : Option ℚ) :
    closeCameraWindow { s with previous_distance := p }
      = ({ (closeCameraWindow s).1 with previous_distance := p },
         (closeCameraWindow s).2) := by
  unfold closeCameraWindow
  by_cases h : s.camera_window_open <;> simp [h]

/-- The classify phase commutes with overwriting `previous_distance`. -/
lemma classifyPhase_prev (inp : TickInput) (s : SysState) (p : Option ℚ) :
    classifyPhase inp { s with previous_distance := p }
      = { classifyPhase inp s with
          state := { (classifyPhase inp s).state with previous_distance := p } } := by
  unfold classifyPhase
  simp only [classify_waste_prev, resetClassification_prev, closeCameraWindow_prev]
  by_cases h1 : inp.now < s.camera_active_until
  · by_cases h2 : s.camOk <;> simp [h1, h2]
  · simp [h1]

/-- The light-expiry step commutes with overwriting `previous_distance`. -/
lemma lightsPhase_prev (inp : TickInput) (s : SysState) (p : Option ℚ) :
    lightsPhase inp { s with previous_distance := p }
      = { lightsPhase inp s with previous_distance := p } := by
  cases s
  unfold lightsPhase
  dsimp only
  split_ifs <;> rfl

/-- C10: the monitoring loop never invokes the delta-based `detect_motion`:
one tick leaves `previous_distance` untouched, and two runs of one tick that
differ only in the stored `previous_distance` make identical decisions — the
whole tick output (armed windows, fired actions, capture/infer calls) agrees
except for the carried-along `previous_distance` itself. -/
theorem C10_prev_distance_noninterference :
    (∀ (inp : TickInput) (s : SysState),
       (tick inp s).state.previous_distance = s.previous_distance) ∧
    (∀ (inp : TickInput) (s : SysState) (p : Option ℚ),
       tick inp { s with previous_distance := p }
         = { tick inp s with
             state := { (tick inp s).state with previous_distance := p } }) := by
  constructor
  · intro inp s
    exact ((lightsPhase_fields inp (classifyPhase inp
        (armPhase LIGHT_ON_DURATION inp s)).state).2.1.trans
      (classifyPhase_fields inp (armPhase LIGHT_ON_DURATION inp s)).2.2.1).trans
      (armPhase_fields LIGHT_ON_DURATION inp s).1
  · intro inp s p
    have heq : ∀ (i : TickInput) (t : SysState), tick i t = tickD LIGHT_ON_DURATION i t :=
      fun _ _ => rfl
    rw [heq, heq]
    unfold tickD
    rw [armPhase_prev, classifyPhase_prev]
    simp [lightsPhase_prev]

end AISVE
